import Mathlib

/-!
Shallow embedding of the `exception` package (modules `option_.py` and
`result.py`): Rust-style `Option` and `Result` wrapper types for Python,
plus the two adapters `as_option` and `as_result`.

Modelling choices:
* Python is dynamically typed, so payloads live in a single universe
  `PyVal` of the values the claims use (ints, strings, `None`, exception
  objects, and the wrapper objects themselves, mutually).
* Python exception objects are modelled by `Exc`: a class (within the
  fragment of the standard exception hierarchy that the code and spec
  touch), a message, and an object id `oid` modelling Python object
  identity (`is`).  Default exception `__eq__` is identity, i.e. `oid`
  equality for well-formed heaps where distinct objects have distinct ids.
* A freshly constructed exception (`ValueError(msg)` inside `unwrap` /
  `expect`) is modelled with `oid = 0`; no claim depends on the identity
  of these fresh objects, only on the identity of *captured* ones, which
  the embedding threads through unchanged.
* The module-level singleton `NONE` is `Option_.NONEObj 0`; a hypothetical
  per-call allocation of `_NONE()` would carry some other id, so an
  operation provably returning `NONE` returns the shared singleton.
* Methods whose Python body can execute a `raise` statement return
  `Except Exc _`; methods whose body cannot raise (caller-supplied
  callables are modelled as pure functions, per the spec, which assigns
  the risk of a raising callable to the caller) return plain values.
-/

/-- The fragment of the Python exception class hierarchy used by the code,
its tests and the spec.  `keyboardInterrupt` and `systemExit` derive from
`BaseException` directly, not from `Exception`. -/
inductive ExcClass where
  | baseException
  | exception
  | valueError
  | typeError
  | nameError
  | attributeError
  | keyboardInterrupt
  | systemExit
deriving DecidableEq, Repr

/-- The method-resolution list of an exception class: itself followed by
its base classes, as in Python (the root `object` is irrelevant here and
omitted). -/
def ExcClass.mro : ExcClass → List ExcClass
  | .baseException => [.baseException]
  | .exception => [.exception, .baseException]
  | .valueError => [.valueError, .exception, .baseException]
  | .typeError => [.typeError, .exception, .baseException]
  | .nameError => [.nameError, .exception, .baseException]
  | .attributeError => [.attributeError, .exception, .baseException]
  | .keyboardInterrupt => [.keyboardInterrupt, .baseException]
  | .systemExit => [.systemExit, .baseException]

/-- Python `issubclass c d`. -/
def ExcClass.issubclass (c d : ExcClass) : Bool :=
  c.mro.contains d

/-- A Python exception object: its class, its message, and its object
identity `oid`. -/
structure Exc where
  cls : ExcClass
  msg : String
  oid : Nat
deriving DecidableEq, Repr

/-- Python `isinstance e c` for an exception object against a class. -/
def Exc.isinstance (e : Exc) (c : ExcClass) : Bool :=
  e.cls.issubclass c

/-- The exception object freshly constructed by `ValueError(msg)`;
fresh allocations are modelled with `oid = 0`. -/
def ValueErrorExc (msg : String) : Exc :=
  { cls := .valueError, msg := msg, oid := 0 }

mutual
/-- The universe of Python values the claims range over: ints, strings,
the `None` singleton, exception objects, and the wrapper objects. -/
inductive PyVal where
  | int (n : Int)
  | str (s : String)
  | pyNone
  | exc (e : Exc)
  | opt (o : Option_)
  | res (r : Result)

/-- The `Option` type of `option_.py`: either `Some` holding a value, or
an instance of the `_NONE` class.  `NONEObj oid` carries the object id of
the `_NONE` instance; the module-level singleton `NONE` has id 0. -/
inductive Option_ where
  | Some (value : PyVal)
  | NONEObj (oid : Nat)

/-- The `Result` type of `result.py`: `Ok` holding a value or `Err`
holding an exception object (`E` is bound to `Exception` in the source).  -/
inductive Result where
  | Ok (value : PyVal)
  | Err (err : Exc)
end

/-- The module-level singleton `NONE = _NONE()` of `option_.py`. -/
def NONE : Option_ := .NONEObj 0

mutual
/-- Python `==` on the value universe.  Exception objects compare by
identity (default object `__eq__`), wrapper objects dispatch to the
`__eq__` methods of `Some`/`_NONE`/`Ok`/`Err`, and values of different
types are unequal. -/
def pyEq : PyVal → PyVal → Bool
  | .int a, .int b => a == b
  | .str a, .str b => a == b
  | .pyNone, .pyNone => true
  | .exc a, .exc b => a.oid == b.oid
  | .opt a, .opt b => Option_.eq a b
  | .res a, .res b => Result.eq a b
  | _, _ => false

/-- `Some.__eq__` / `_NONE.__eq__`: `Some` compares payloads with `==`
after an `isinstance(other, Some)` check; `_NONE.__eq__` is just
`isinstance(other, _NONE)` (any `_NONE` instance is equal). -/
def Option_.eq : Option_ → Option_ → Bool
  | .Some a, .Some b => pyEq a b
  | .NONEObj _, .NONEObj _ => true
  | _, _ => false

/-- `Ok.__eq__` / `Err.__eq__`: compare payloads with `==` after an
`isinstance` check against the same variant class. -/
def Result.eq : Result → Result → Bool
  | .Ok a, .Ok b => pyEq a b
  | .Err a, .Err b => a.oid == b.oid
  | _, _ => false
end

namespace Option_

/-- `Some.is_some` / `_NONE.is_some`. -/
def is_some : Option_ → Bool
  | .Some _ => true
  | .NONEObj _ => false

/-- `Some.is_none` / `_NONE.is_none`. -/
def is_none : Option_ → Bool
  | .Some _ => false
  | .NONEObj _ => true

/-- `Some.unwrap` returns the held value; `_NONE.unwrap` raises
`ValueError("Trying to unwrap a NONE instance.")`. -/
def unwrap : Option_ → Except Exc PyVal
  | .Some v => .ok v
  | .NONEObj _ => .error (ValueErrorExc "Trying to unwrap a NONE instance.")

/-- `unwrap_or`: the held value if `Some`, else the (eagerly evaluated)
default. -/
def unwrap_or (x : Option_) (default : PyVal) : PyVal :=
  match x with
  | .Some v => v
  | .NONEObj _ => default

/-- `unwrap_or_else`: the held value if `Some`, else the result of
calling the zero-argument closure `op`. -/
def unwrap_or_else (x : Option_) (op : Unit → PyVal) : PyVal :=
  match x with
  | .Some v => v
  | .NONEObj _ => op ()

/-- `Some.map` returns `Some(op(self.unwrap()))`; `_NONE.map` returns the
module-level singleton `NONE` without invoking `op`. -/
def map (x : Option_) (op : PyVal → PyVal) : Option_ :=
  match x with
  | .Some v => .Some (op v)
  | .NONEObj _ => NONE

/-- `Some.expect` returns the held value; `_NONE.expect` raises
`ValueError(msg)`. -/
def expect (x : Option_) (msg : String) : Except Exc PyVal :=
  match x with
  | .Some v => .ok v
  | .NONEObj _ => .error (ValueErrorExc msg)

/-- The read-only `value` property: `return self.unwrap()`. -/
def value (x : Option_) : Except Exc PyVal :=
  x.unwrap

end Option_

namespace Result

/-- `Ok.is_ok` / `Err.is_ok`. -/
def is_ok : Result → Bool
  | .Ok _ => true
  | .Err _ => false

/-- `Ok.is_err` / `Err.is_err`. -/
def is_err : Result → Bool
  | .Ok _ => false
  | .Err _ => true

/-- `Ok.ok` returns `Some(value)`; `Err.ok` returns `NONE`. -/
def ok : Result → Option_
  | .Ok v => .Some v
  | .Err _ => NONE

/-- `Ok.err` returns `NONE`; `Err.err` returns `Some(err)`. -/
def err : Result → Option_
  | .Ok _ => NONE
  | .Err e => .Some (.exc e)

/-- `Ok.unwrap` returns the held value; `Err.unwrap` executes
`raise self._err`, re-raising the captured exception object itself. -/
def unwrap : Result → Except Exc PyVal
  | .Ok v => .ok v
  | .Err e => .error e

/-- `unwrap_or`: the held value if `Ok`, else the default. -/
def unwrap_or (x : Result) (default : PyVal) : PyVal :=
  match x with
  | .Ok v => v
  | .Err _ => default

/-- `unwrap_or_else`: the held value if `Ok`, else `op` applied to the
held exception. -/
def unwrap_or_else (x : Result) (op : Exc → PyVal) : PyVal :=
  match x with
  | .Ok v => v
  | .Err e => op e

/-- `Ok.expect` returns the held value; `Err.expect` raises
`ValueError(msg)`, discarding the held exception. -/
def expect (x : Result) (msg : String) : Except Exc PyVal :=
  match x with
  | .Ok v => .ok v
  | .Err _ => .error (ValueErrorExc msg)

/-- `Result.map_error` (defined once on the base class):
`if self.is_err(): return Err(op(self.err()))` else `return self`. -/
def map_error (x : Result) (op : Option_ → Exc) : Result :=
  if x.is_err then .Err (op x.err) else x

end Result

/-- Python `result is None`: identity test against the `None` singleton. -/
def PyVal.is_None : PyVal → Bool
  | .pyNone => true
  | _ => false

/-- The `as_option` decorator of `option_.py`: the wrapped call is made
with the caller arguments passed through unchanged (modelled as a single
argument value `x`); `NONE` if the result `is None`, else `Some(result)`. -/
def as_option (func : PyVal → PyVal) (x : PyVal) : Option_ :=
  if (func x).is_None then NONE else .Some (func x)

/-- The `as_result` decorator factory of `result.py`: `exceptions` is the
selector list (defaulting to `(Exception,)` when empty); the wrapper calls
`f` on the passed-through arguments, turns a normal return into `Ok`, an
exception caught by the `except exceptions` clause into `Err`, and lets
any other exception propagate. -/
def as_result (exceptions : List ExcClass) (f : PyVal → Except Exc PyVal)
    (x : PyVal) : Except Exc Result :=
  let excs := if exceptions.isEmpty then [ExcClass.exception] else exceptions
  match f x with
  | .ok v => .ok (.Ok v)
  | .error e => if excs.any (fun c => e.isinstance c) then .ok (.Err e) else .error e

/-- C1: `Err(e).unwrap()` raises exactly the captured exception object `e`
itself — same identity (`oid`), class and message, not a fresh wrapping or
invalid-state error — and `Ok(v).unwrap()` returns `v`. -/
theorem C1_unwrap_reraises_original :
    (∀ e : Exc, (Result.Err e).unwrap = Except.error e) ∧
    (∀ v : PyVal, (Result.Ok v).unwrap = Except.ok v) :=
  ⟨fun _ => rfl, fun _ => rfl⟩

/-- C3: `Ok(v).map_error(g)` returns the receiver itself unchanged, for
every transform `g` (so `g` is never invoked: the result does not depend
on `g`); `Err(e).map_error(g)` equals `Err(g(Some(e)))`, so `g` is always
applied to a `Some`-wrapped error, never to `NONE`. -/
theorem C3_map_error :
    (∀ (v : PyVal) (g : Option_ → Exc),
        (Result.Ok v).map_error g = Result.Ok v) ∧
    (∀ (e : Exc) (g : Option_ → Exc),
        (Result.Err e).map_error g = Result.Err (g (Option_.Some (.exc e)))) :=
  ⟨fun _ _ => rfl, fun _ _ => rfl⟩

/-- C5: `expect(m)` on `NONE` and on `Err(e)` raises a `ValueError` whose
message is exactly `m` and whose content is independent of the original
payload (`Err(e).expect(m)` discards `e` entirely); on `Some(v)` / `Ok(v)`
it returns `v`. -/
theorem C5_expect :
    (∀ (i : Nat) (m : String),
        (Option_.NONEObj i).expect m =
          Except.error { cls := .valueError, msg := m, oid := 0 }) ∧
    (∀ (e : Exc) (m : String),
        (Result.Err e).expect m =
          Except.error { cls := .valueError, msg := m, oid := 0 }) ∧
    (∀ (v : PyVal) (m : String), (Option_.Some v).expect m = Except.ok v) ∧
    (∀ (v : PyVal) (m : String), (Result.Ok v).expect m = Except.ok v) :=
  ⟨fun _ _ => rfl, fun _ _ => rfl, fun _ _ => rfl, fun _ _ => rfl⟩

/-- C7: `Some(v).map(f) = Some(f(v))`; `NONE.map(f)` returns `NONE`
untouched (the module singleton) for every `f`, so `f` is never invoked:
the result on the absent variant does not depend on `f`. -/
theorem C7_map :
    (∀ (v : PyVal) (f : PyVal → PyVal),
        (Option_.Some v).map f = Option_.Some (f v)) ∧
    (∀ f : PyVal → PyVal, NONE.map f = NONE) :=
  ⟨fun _ _ => rfl, fun _ => rfl⟩

/-- C2: for every selector list `S`, wrapped function `f` and argument `x`:
a normal return `r` yields `Ok r`; a raised exception matching some
selector (for nonempty `S`) yields `Err` with the caught object; a raised
exception matching no selector propagates unchanged; and the empty
selector list behaves exactly like the default selector `Exception`. -/
theorem C2_as_result (S : List ExcClass) (f : PyVal → Except Exc PyVal)
    (x : PyVal) :
    (∀ r, f x = Except.ok r → as_result S f x = Except.ok (Result.Ok r)) ∧
    (∀ e, f x = Except.error e → S ≠ [] →
        ((S.any fun c => e.isinstance c) = true →
          as_result S f x = Except.ok (Result.Err e)) ∧
        ((S.any fun c => e.isinstance c) = false →
          as_result S f x = Except.error e)) ∧
    as_result [] f x = as_result [ExcClass.exception] f x := by
  refine ⟨fun r h => by simp [as_result, h], fun e h hS => ?_, ?_⟩
  · cases S with
    | nil => exact absurd rfl hS
    | cons a t =>
      constructor <;> intro hm <;> simp [as_result, h, hm]
  · cases h : f x <;> simp [as_result, h]

/-- Test function for the adapter scenario: returns 42 for "a", raises
`NameError` for "b", raises `AttributeError` otherwise. -/
def demoF2 : PyVal → Except Exc PyVal
  | .str "a" => .ok (.int 42)
  | .str "b" => .error { cls := .nameError, msg := "nb", oid := 1 }
  | _ => .error { cls := .attributeError, msg := "nc", oid := 2 }

/-- Witness for C2, following the adapter scenario of the spec: catching
only `NameError`, "a" yields `Ok 42`, "b" yields `Err` holding the raised
`NameError` object, "c" propagates the `AttributeError` uncaught. -/
theorem C2_as_result_witness :
    as_result [ExcClass.nameError] demoF2 (.str "a") =
      Except.ok (Result.Ok (.int 42)) ∧
    as_result [ExcClass.nameError] demoF2 (.str "b") =
      Except.ok (Result.Err { cls := .nameError, msg := "nb", oid := 1 }) ∧
    as_result [ExcClass.nameError] demoF2 (.str "c") =
      Except.error { cls := .attributeError, msg := "nc", oid := 2 } :=
  ⟨(C2_as_result [ExcClass.nameError] demoF2 (.str "a")).1 _ rfl,
   ((C2_as_result [ExcClass.nameError] demoF2 (.str "b")).2.1 _ rfl
      (by decide)).1 (by decide),
   ((C2_as_result [ExcClass.nameError] demoF2 (.str "c")).2.1 _ rfl
      (by decide)).2 (by decide)⟩

/-- C8: the `as_option` adapter applies the wrapped function to the
passed-through argument; if the result `is None` it yields the `NONE`
singleton, otherwise `Some` of the result. -/
theorem C8_as_option (func : PyVal → PyVal) (x : PyVal) :
    ((func x).is_None = true → as_option func x = NONE) ∧
    ((func x).is_None = false → as_option func x = Option_.Some (func x)) := by
  constructor <;> intro h <;> simp [as_option, h]

/-- Test function for the nullable adapter scenario: 42 for "a", the
`None` sentinel otherwise. -/
def demoF8 : PyVal → PyVal
  | .str "a" => .int 42
  | _ => .pyNone

/-- Witness for C8, following adapter scenario 1 of the spec: `Some 42`
for "a" and `NONE` for "b". -/
theorem C8_as_option_witness :
    as_option demoF8 (.str "a") = Option_.Some (.int 42) ∧
    as_option demoF8 (.str "b") = NONE :=
  ⟨(C8_as_option demoF8 (.str "a")).2 rfl,
   (C8_as_option demoF8 (.str "b")).1 rfl⟩

/-- C9: every operation that yields the absent variant — `_NONE.map`, the
`as_option` absent path, `Ok.err`, `Err.ok` — returns the module-level
singleton `NONE` (object id 0), never a freshly allocated `_NONE`
instance. -/
theorem C9_NONE_singleton :
    (∀ (i : Nat) (f : PyVal → PyVal), (Option_.NONEObj i).map f = NONE) ∧
    (∀ (func : PyVal → PyVal) (x : PyVal),
        (func x).is_None = true → as_option func x = NONE) ∧
    (∀ v : PyVal, (Result.Ok v).err = NONE) ∧
    (∀ e : Exc, (Result.Err e).ok = NONE) ∧
    NONE = Option_.NONEObj 0 :=
  ⟨fun _ _ => rfl, fun _ _ h => by simp [as_option, h],
   fun _ => rfl, fun _ => rfl, rfl⟩

/-- Witness for C9 at concrete inputs. -/
theorem C9_NONE_singleton_witness :
    (Option_.NONEObj 7).map (fun v => v) = NONE ∧
    as_option (fun _ => PyVal.pyNone) (.int 0) = NONE ∧
    (Result.Ok (.int 1)).err = NONE ∧
    (Result.Err { cls := .valueError, msg := "m", oid := 9 }).ok = NONE :=
  ⟨C9_NONE_singleton.1 7 _, C9_NONE_singleton.2.1 _ (.int 0) rfl,
   C9_NONE_singleton.2.2.1 _, C9_NONE_singleton.2.2.2.1 _⟩

/-- C10: with no selectors, `as_result` defaults to catching the
`Exception` hierarchy only: an exception whose class derives from
`Exception` is caught as `Err`, while `KeyboardInterrupt` and
`SystemExit` (which derive from `BaseException` but not `Exception`)
propagate uncaught even in the default configuration. -/
theorem C10_default_catches_exception_only (f : PyVal → Except Exc PyVal)
    (x : PyVal) (e : Exc) :
    (f x = Except.error e → e.cls.issubclass .exception = true →
      as_result [] f x = Except.ok (Result.Err e)) ∧
    (f x = Except.error e → e.cls = .keyboardInterrupt →
      as_result [] f x = Except.error e) ∧
    (f x = Except.error e → e.cls = .systemExit →
      as_result [] f x = Except.error e) := by
  refine ⟨fun h hc => ?_, fun h hc => ?_, fun h hc => ?_⟩ <;>
    simp [as_result, h, Exc.isinstance, hc] <;>
    simp [ExcClass.issubclass, ExcClass.mro]

/-- Test function raising `KeyboardInterrupt` for 0, `SystemExit` for 1,
`ValueError` otherwise. -/
def demoF10 : PyVal → Except Exc PyVal
  | .int 0 => .error { cls := .keyboardInterrupt, msg := "ki", oid := 3 }
  | .int 1 => .error { cls := .systemExit, msg := "se", oid := 4 }
  | _ => .error { cls := .valueError, msg := "ve", oid := 5 }

/-- Witness for C10 at concrete inputs. -/
theorem C10_default_catches_exception_only_witness :
    as_result [] demoF10 (.int 0) =
      Except.error { cls := .keyboardInterrupt, msg := "ki", oid := 3 } ∧
    as_result [] demoF10 (.int 1) =
      Except.error { cls := .systemExit, msg := "se", oid := 4 } ∧
    as_result [] demoF10 (.int 2) =
      Except.ok (Result.Err { cls := .valueError, msg := "ve", oid := 5 }) :=
  ⟨(C10_default_catches_exception_only demoF10 (.int 0) _).2.1 rfl rfl,
   (C10_default_catches_exception_only demoF10 (.int 1) _).2.2 rfl rfl,
   (C10_default_catches_exception_only demoF10 (.int 2) _).1 rfl (by decide)⟩

/-- The Python class name of an exception class. -/
def ExcClass.pyName : ExcClass → String
  | .baseException => "BaseException"
  | .exception => "Exception"
  | .valueError => "ValueError"
  | .typeError => "TypeError"
  | .nameError => "NameError"
  | .attributeError => "AttributeError"
  | .keyboardInterrupt => "KeyboardInterrupt"
  | .systemExit => "SystemExit"

/-- Python `repr` of an exception object, e.g. `ValueError('msg')`;
escaping inside the message is not modelled. -/
def Exc.reprPy (e : Exc) : String :=
  e.cls.pyName ++ "(\x27" ++ e.msg ++ "\x27)"

mutual
/-- Python `repr` on the value universe; escaping inside string payloads
is not modelled (the payload appears verbatim between quotes). -/
def PyVal.reprPy : PyVal → String
  | .int n => toString n
  | .str s => "\x27" ++ s ++ "\x27"
  | .pyNone => "None"
  | .exc e => e.reprPy
  | .opt o => Option_.reprPy o
  | .res r => Result.reprPy r

/-- `Some.__repr__` / `_NONE.__repr__`. -/
def Option_.reprPy : Option_ → String
  | .Some v => "Some(" ++ PyVal.reprPy v ++ ")"
  | .NONEObj _ => "None"

/-- `Ok.__repr__` / `Err.__repr__`. -/
def Result.reprPy : Result → String
  | .Ok v => "Ok(" ++ PyVal.reprPy v ++ ")"
  | .Err e => "Err(" ++ e.reprPy ++ ")"
end

/-- C4: `unwrap`, `value` and `expect` are the only operations that can
produce a caller-visible failure, and they fail exactly on the absent /
failure variant; every other operation — the variant queries, `ok`, `err`,
`unwrap_or`, `unwrap_or_else`, `map`, `map_error`, equality and
representation — is total, producing the stated value on every variant. -/
theorem C4_only_accessors_fail :
    (∀ i, (Option_.NONEObj i).unwrap =
        Except.error (ValueErrorExc "Trying to unwrap a NONE instance.")) ∧
    (∀ i, (Option_.NONEObj i).value =
        Except.error (ValueErrorExc "Trying to unwrap a NONE instance.")) ∧
    (∀ i m, (Option_.NONEObj i).expect m = Except.error (ValueErrorExc m)) ∧
    (∀ e, (Result.Err e).unwrap = Except.error e) ∧
    (∀ e m, (Result.Err e).expect m = Except.error (ValueErrorExc m)) ∧
    (∀ v, (Option_.Some v).unwrap = Except.ok v) ∧
    (∀ v, (Option_.Some v).value = Except.ok v) ∧
    (∀ v m, (Option_.Some v).expect m = Except.ok v) ∧
    (∀ v, (Result.Ok v).unwrap = Except.ok v) ∧
    (∀ v m, (Result.Ok v).expect m = Except.ok v) ∧
    (∀ v, (Option_.Some v).is_some = true) ∧
    (∀ i, (Option_.NONEObj i).is_some = false) ∧
    (∀ v, (Option_.Some v).is_none = false) ∧
    (∀ i, (Option_.NONEObj i).is_none = true) ∧
    (∀ v d, (Option_.Some v).unwrap_or d = v) ∧
    (∀ i d, (Option_.NONEObj i).unwrap_or d = d) ∧
    (∀ v op, (Option_.Some v).unwrap_or_else op = v) ∧
    (∀ i op, (Option_.NONEObj i).unwrap_or_else op = op ()) ∧
    (∀ v f, (Option_.Some v).map f = Option_.Some (f v)) ∧
    (∀ i f, (Option_.NONEObj i).map f = NONE) ∧
    (∀ v, (Result.Ok v).is_ok = true) ∧
    (∀ e, (Result.Err e).is_ok = false) ∧
    (∀ v, (Result.Ok v).is_err = false) ∧
    (∀ e, (Result.Err e).is_err = true) ∧
    (∀ v, (Result.Ok v).ok = Option_.Some v) ∧
    (∀ e, (Result.Err e).ok = NONE) ∧
    (∀ v, (Result.Ok v).err = NONE) ∧
    (∀ e, (Result.Err e).err = Option_.Some (.exc e)) ∧
    (∀ v d, (Result.Ok v).unwrap_or d = v) ∧
    (∀ e d, (Result.Err e).unwrap_or d = d) ∧
    (∀ v op, (Result.Ok v).unwrap_or_else op = v) ∧
    (∀ e op, (Result.Err e).unwrap_or_else op = op e) ∧
    (∀ v g, (Result.Ok v).map_error g = Result.Ok v) ∧
    (∀ e g, (Result.Err e).map_error g =
        Result.Err (g (Option_.Some (.exc e)))) ∧
    (∀ a b : Option_, Option_.eq a b = true ∨ Option_.eq a b = false) ∧
    (∀ a b : Result, Result.eq a b = true ∨ Result.eq a b = false) ∧
    (∀ v, (Option_.Some v).reprPy = "Some(" ++ v.reprPy ++ ")") ∧
    (∀ i, (Option_.NONEObj i).reprPy = "None") ∧
    (∀ v, (Result.Ok v).reprPy = "Ok(" ++ v.reprPy ++ ")") ∧
    (∀ e, (Result.Err e).reprPy = "Err(" ++ e.reprPy ++ ")") :=
  ⟨fun _ => rfl, fun _ => rfl, fun _ _ => rfl, fun _ => rfl, fun _ _ => rfl,
   fun _ => rfl, fun _ => rfl, fun _ _ => rfl, fun _ => rfl, fun _ _ => rfl,
   fun _ => rfl, fun _ => rfl, fun _ => rfl, fun _ => rfl,
   fun _ _ => rfl, fun _ _ => rfl, fun _ _ => rfl, fun _ _ => rfl,
   fun _ _ => rfl, fun _ _ => rfl,
   fun _ => rfl, fun _ => rfl, fun _ => rfl, fun _ => rfl,
   fun _ => rfl, fun _ => rfl, fun _ => rfl, fun _ => rfl,
   fun _ _ => rfl, fun _ _ => rfl, fun _ _ => rfl, fun _ _ => rfl,
   fun _ _ => rfl, fun _ _ => rfl,
   fun a b => by cases h : Option_.eq a b <;> simp,
   fun a b => by cases h : Result.eq a b <;> simp,
   fun _ => rfl, fun _ => rfl, fun _ => rfl, fun _ => rfl⟩

/-- C6: equality is total — `Option_.eq` / `Result.eq` / `pyEq` are
boolean-valued functions, so comparison always yields an answer and never
fails — and structural: same value-carrying variants compare
their payloads by value equality (identity for exception payloads),
different variants and different types are always unequal, and any two
`_NONE` instances are equal. -/
theorem C6_equality :
    (∀ a b : PyVal, Option_.eq (.Some a) (.Some b) = pyEq a b) ∧
    (∀ a b : PyVal, Result.eq (.Ok a) (.Ok b) = pyEq a b) ∧
    (∀ a b : Exc, Result.eq (.Err a) (.Err b) = (a.oid == b.oid)) ∧
    (∀ (a : PyVal) (i : Nat), Option_.eq (.Some a) (.NONEObj i) = false) ∧
    (∀ (a : PyVal) (i : Nat), Option_.eq (.NONEObj i) (.Some a) = false) ∧
    (∀ (a : PyVal) (e : Exc), Result.eq (.Ok a) (.Err e) = false) ∧
    (∀ (a : PyVal) (e : Exc), Result.eq (.Err e) (.Ok a) = false) ∧
    (∀ i j : Nat, Option_.eq (.NONEObj i) (.NONEObj j) = true) ∧
    (∀ (o : Option_) (r : Result), pyEq (.opt o) (.res r) = false) ∧
    (∀ (o : Option_) (r : Result), pyEq (.res r) (.opt o) = false) ∧
    (∀ (o : Option_) (n : Int), pyEq (.opt o) (.int n) = false) ∧
    (∀ (o : Option_) (s : String), pyEq (.opt o) (.str s) = false) ∧
    (∀ o : Option_, pyEq (.opt o) .pyNone = false) ∧
    (∀ (o : Option_) (e : Exc), pyEq (.opt o) (.exc e) = false) ∧
    (∀ (r : Result) (n : Int), pyEq (.res r) (.int n) = false) ∧
    (∀ (r : Result) (s : String), pyEq (.res r) (.str s) = false) ∧
    (∀ r : Result, pyEq (.res r) .pyNone = false) ∧
    (∀ (r : Result) (e : Exc), pyEq (.res r) (.exc e) = false) ∧
    Option_.eq (.Some (.int 1)) (.Some (.int 2)) = false ∧
    Option_.eq (.Some (.str "0")) (.Some (.int 0)) = false ∧
    Option_.eq NONE NONE = true :=
  ⟨fun _ _ => rfl, fun _ _ => rfl, fun _ _ => rfl, fun _ _ => rfl,
   fun _ _ => rfl, fun _ _ => rfl, fun _ _ => rfl, fun _ _ => rfl,
   fun _ _ => rfl, fun _ _ => rfl, fun _ _ => rfl, fun _ _ => rfl,
   fun _ => rfl, fun _ _ => rfl, fun _ _ => rfl, fun _ _ => rfl,
   fun _ => rfl, fun _ _ => rfl, by decide, by decide, rfl⟩
